import Mathlib

/-!
Verification of the Hearthstone ladder climb simulator
(`hearthstone_stars.py`): a shallow embedding of the star map builder,
the per-game transition, the climb loop and the averaging driver,
together with theorems about them.

Modelling conventions:
* the `OrderedDict` is an association list `List (Nat × Nat)` in insertion
  order (key = total stars, value = rank; rank 0 is the Legend sentinel);
* `random.random()` draws are an explicit stream `Nat → ℚ` of values the
  caller assumes to lie in `[0, 1)`; `play_game` compares a draw with the
  win rate exactly as the source does (`random.random() < win_rate`);
* Python's `min` over a possibly-empty generator (which raises
  `ValueError` when empty) is `pymin : List Nat → Option Nat`, and
  functions that would raise return `Option`;
* the `while current_stars < legend and games < 5000` loop is structural
  recursion on the fuel `5000 - games`, carried explicitly so that the
  loop reduces; the top-level call passes fuel 5000 and games 0.
-/

namespace HearthstoneStars

/-- One entry of the per-rank key layout: `stars_per_rank` consecutive new
star keys `num_stars+1, …, num_stars+stars_per_rank`, all mapping to
`current_rank` (the inner `for _ in xrange(stars_per_rank)` loop). -/
def rank_keys (num_stars stars_per_rank current_rank : Nat) : List (Nat × Nat) :=
  (List.range stars_per_rank).map (fun i => (num_stars + i + 1, current_rank))

/-- Loop body of `build_star_map`: widen the band at ranks 20, 15, 10,
then lay down the current rank's keys.  The accumulator is
`(d, num_stars, stars_per_rank)`. -/
def add_rank (acc : List (Nat × Nat) × Nat × Nat) (current_rank : Nat) :
    List (Nat × Nat) × Nat × Nat :=
  let stars_per_rank :=
    if current_rank ∈ [20, 15, 10] then acc.2.2 + 1 else acc.2.2
  (acc.1 ++ rank_keys acc.2.1 stars_per_rank current_rank,
    acc.2.1 + stars_per_rank, stars_per_rank)

/-- `build_star_map()`: seed `d[0] = 25`, iterate the ranks 25 down to 1,
then append the Legend sentinel entry `d[num_stars+1] = 0`. -/
def build_star_map : List (Nat × Nat) :=
  let ranks := (List.range' 1 25).reverse
  let res := ranks.foldl add_rank ([(0, 25)], 0, 2)
  res.1 ++ [(res.2.1 + 1, 0)]

/-- Python's `min` over a list that may be empty: `none` models the
`ValueError` raised on an empty generator. -/
def pymin : List Nat → Option Nat
  | [] => none
  | a :: as => some (as.foldl Nat.min a)

/-- `min(k for k, v in star_map.items() if v == rank)`. -/
def min_key_for (rank : Nat) : Option Nat :=
  pymin ((build_star_map.filter (fun p => p.2 == rank)).map Prod.fst)

/-- `star_map.keys()[-1]`: the last inserted key (the Legend key). -/
def legend_key : Nat := (build_star_map.map Prod.fst).getLastD 0

/-- The list comprehension resolving `rank_floors` into star counts;
`none` models the `ValueError` if some floor rank has no key. -/
def resolve_floors : List Nat → Option (List Nat)
  | [] => some []
  | r :: rs =>
    match min_key_for r, resolve_floors rs with
    | some k, some ks => some (k :: ks)
    | _, _ => none

/-- Number of star keys the map assigns to a given rank (the band width). -/
def band_width (rank : Nat) : Nat :=
  (build_star_map.filter (fun p => p.2 == rank)).length

/-- `play_game(win_rate)`: win iff the drawn value is below the win rate. -/
def play_game (win_rate draw : ℚ) : Bool := decide (draw < win_rate)

/-- Mutable state of one climb: `current_stars`, `wins_in_row`, `games`. -/
structure ClimbState where
  current_stars : Int
  wins_in_row : Nat
  games : Nat

/-- The body of the `while` loop of `climb_to_legend`, as a function of
the drawn random value: increment `games`, then either take the win
branch (streak increment, possible two-star bonus) or the loss branch
(streak reset, star lost unless sitting exactly on a floor). -/
def climbStep (win_rate : ℚ) (no_streaks_above : Int) (star_rank_floors : List Int)
    (draw : ℚ) (st : ClimbState) : ClimbState :=
  let games := st.games + 1
  if play_game win_rate draw then
    let wins_in_row := st.wins_in_row + 1
    if 3 ≤ wins_in_row ∧ st.current_stars < no_streaks_above then
      ⟨st.current_stars + 2, wins_in_row, games⟩
    else
      ⟨st.current_stars + 1, wins_in_row, games⟩
  else
    if st.current_stars ∈ star_rank_floors then
      ⟨st.current_stars, 0, games⟩
    else
      ⟨st.current_stars - 1, 0, games⟩

/-- The `while current_stars < legend and games < 5000` loop.  The fuel
argument is `5000 - games`; the caller passes fuel 5000 with `games = 0`,
so fuel 0 is exactly `games = 5000` and the loop answer is `games`. -/
def climbLoop (win_rate : ℚ) (no_streaks_above : Int) (star_rank_floors : List Int)
    (legend : Int) (s : Nat → ℚ) : Nat → Int → Nat → Nat → Nat
  | 0, _, _, games => games
  | fuel + 1, current_stars, wins_in_row, games =>
    if current_stars < legend then
      let st := climbStep win_rate no_streaks_above star_rank_floors (s games)
        ⟨current_stars, wins_in_row, games⟩
      climbLoop win_rate no_streaks_above star_rank_floors legend s fuel
        st.current_stars st.wins_in_row st.games
    else games

/-- `DEFAULT_RANK_FLOORS = (25, 20, 15, 10, 5)`. -/
def DEFAULT_RANK_FLOORS : List Nat := [25, 20, 15, 10, 5]

/-- `climb_to_legend(win_rate, start_stars, no_streaks_above_rank,
rank_floors)` with the random stream made explicit.  Resolving the floors
or the streak threshold fails (`none`) exactly when Python's `min` would
raise. -/
def climb_to_legend (win_rate : ℚ) (s : Nat → ℚ) (start_stars : Int)
    (no_streaks_above_rank : Nat) (rank_floors : List Nat) : Option Nat :=
  match resolve_floors rank_floors, min_key_for no_streaks_above_rank with
  | some fl, some nsa =>
    some (climbLoop win_rate (nsa : Int) (fl.map (fun k : Nat => (k : Int)))
      (legend_key : Int) s 5000 start_stars 0 0)
  | _, _ => none

/-- `n` successive runs of `climb_to_legend` sharing the random stream:
each run consumes one draw per game, so the next run sees the stream
shifted by the games the previous run played. -/
def runClimbs (win_rate : ℚ) (start_stars : Int) (no_streaks_above_rank : Nat)
    (rank_floors : List Nat) : Nat → (Nat → ℚ) → Option (List Nat)
  | 0, _ => some []
  | n + 1, s =>
    match climb_to_legend win_rate s start_stars no_streaks_above_rank rank_floors with
    | none => none
    | some g =>
      match runClimbs win_rate start_stars no_streaks_above_rank rank_floors n
          (fun i => s (i + g)) with
      | none => none
      | some gs => some (g :: gs)

/-- `statistics.mean`, exact: sum divided by length. -/
def statistics_mean (l : List ℚ) : ℚ := l.sum / l.length

/-- `simulate(n, ...)`: the mean of `n` climb results. -/
def simulate (n : Nat) (win_rate : ℚ) (s : Nat → ℚ) (start_stars : Int)
    (no_streaks_above_rank : Nat) (rank_floors : List Nat) : Option ℚ :=
  (runClimbs win_rate start_stars no_streaks_above_rank rank_floors n s).map
    (fun gs => statistics_mean (gs.map (fun g : Nat => (g : ℚ))))

example : build_star_map.length = 97 := by decide
example : legend_key = 96 := by decide
example : resolve_floors DEFAULT_RANK_FLOORS = some [0, 11, 26, 46, 71] := by decide
example : min_key_for 5 = some 71 := by decide
example : band_width 25 = 3 ∧ band_width 24 = 2 := by decide
example : climb_to_legend 1 (fun _ => 0) 0 5 DEFAULT_RANK_FLOORS = some 61 := by decide
example : runClimbs 1 0 5 DEFAULT_RANK_FLOORS 1 (fun _ => 0) = some [61] := by decide
example : climb_to_legend 0 (fun _ => 0) 0 5 DEFAULT_RANK_FLOORS =
    some (climbLoop 0 71 [0, 11, 26, 46, 71] 96 (fun _ => 0) 5000 0 0 0) := rfl

/-- One game-step reached from a state by drawing some random value. -/
def stepRel (win_rate : ℚ) (no_streaks_above : Int) (star_rank_floors : List Int)
    (st st' : ClimbState) : Prop :=
  ∃ d, st' = climbStep win_rate no_streaks_above star_rank_floors d st

lemma climbStep_loss (win_rate : ℚ) (nsa : Int) (fl : List Int) (d : ℚ)
    (st : ClimbState) (hloss : ¬ d < win_rate) :
    climbStep win_rate nsa fl d st =
      if st.current_stars ∈ fl then ⟨st.current_stars, 0, st.games + 1⟩
      else ⟨st.current_stars - 1, 0, st.games + 1⟩ := by
  simp [climbStep, play_game, hloss]

lemma climbStep_win (win_rate : ℚ) (nsa : Int) (fl : List Int) (d : ℚ)
    (st : ClimbState) (hwin : d < win_rate) :
    climbStep win_rate nsa fl d st =
      if 3 ≤ st.wins_in_row + 1 ∧ st.current_stars < nsa then
        ⟨st.current_stars + 2, st.wins_in_row + 1, st.games + 1⟩
      else ⟨st.current_stars + 1, st.wins_in_row + 1, st.games + 1⟩ := by
  simp [climbStep, play_game, hwin]

lemma climbStep_games (win_rate : ℚ) (nsa : Int) (fl : List Int) (d : ℚ)
    (st : ClimbState) :
    (climbStep win_rate nsa fl d st).games = st.games + 1 := by
  by_cases hw : d < win_rate
  · rw [climbStep_win win_rate nsa fl d st hw]
    split <;> rfl
  · rw [climbStep_loss win_rate nsa fl d st hw]
    split <;> rfl

/-- Claim C1: on a losing game the streak is reset to 0; the star count is
unchanged when it sits exactly on a resolved floor star-count and drops by
exactly 1 otherwise (also when already below a floor): the floor is an
exact-match guard, not a clamp. -/
theorem loss_resets_streak_with_exact_floor_guard (win_rate : ℚ) (nsa : Int)
    (fl : List Int) (d : ℚ) (st : ClimbState) (hloss : ¬ d < win_rate) :
    (climbStep win_rate nsa fl d st).wins_in_row = 0 ∧
    (st.current_stars ∈ fl →
      (climbStep win_rate nsa fl d st).current_stars = st.current_stars) ∧
    (st.current_stars ∉ fl →
      (climbStep win_rate nsa fl d st).current_stars = st.current_stars - 1) := by
  rw [climbStep_loss win_rate nsa fl d st hloss]
  by_cases hm : st.current_stars ∈ fl <;> simp [hm]

/-- Witness for C1: a concrete loss on a floor (stars 0) and off any floor
(stars 3, below the floor 11): streak resets, stars guard as claimed. -/
theorem loss_floor_guard_witness :
    ¬ (0 : ℚ) < 0 ∧
    ((climbStep 0 71 [0, 11, 26, 46, 71] 0 ⟨0, 2, 7⟩).wins_in_row = 0 ∧
      (climbStep 0 71 [0, 11, 26, 46, 71] 0 ⟨0, 2, 7⟩).current_stars = 0) ∧
    (climbStep 0 71 [0, 11, 26, 46, 71] 0 ⟨3, 2, 7⟩).current_stars = 3 - 1 :=
  ⟨by norm_num,
    ⟨(loss_resets_streak_with_exact_floor_guard 0 71 [0, 11, 26, 46, 71] 0
        ⟨0, 2, 7⟩ (by norm_num)).1,
      (loss_resets_streak_with_exact_floor_guard 0 71 [0, 11, 26, 46, 71] 0
        ⟨0, 2, 7⟩ (by norm_num)).2.1 (by decide)⟩,
    (loss_resets_streak_with_exact_floor_guard 0 71 [0, 11, 26, 46, 71] 0
      ⟨3, 2, 7⟩ (by norm_num)).2.2 (by decide)⟩

/-- Counterexample to claim C2 as stated: with r1 = 25 and r2 = 24 the band
widths are 3 and 2, so widths are NOT non-decreasing over all of 1..25. -/
theorem band_width_monotone_all_ranks_false :
    ¬ (∀ r1 r2 : Nat, 1 ≤ r2 → r2 < r1 → r1 ≤ 25 → band_width r1 ≤ band_width r2) :=
  fun h => absurd (h 25 24 (by decide) (by decide) (by decide)) (by decide)

/-- Claim C2 amended: band widths are non-decreasing as rank decreases over
ranks 1..24; rank 25 is the exception, holding 3 star-keys (the seeded key
0 plus its 2-key band) against rank 24's 2 keys. -/
theorem band_width_monotone_below_rank_25 :
    (∀ r1, r1 < 25 → ∀ r2, r2 < r1 → 1 ≤ r2 → band_width r1 ≤ band_width r2) ∧
    band_width 25 = 3 ∧ band_width 24 = 2 := by decide

/-- Witness for the amended C2 at r1 = 10, r2 = 5. -/
theorem band_width_monotone_witness :
    10 < 25 ∧ 5 < 10 ∧ 1 ≤ 5 ∧ band_width 10 ≤ band_width 5 :=
  ⟨by decide, by decide, by decide,
    band_width_monotone_below_rank_25.1 10 (by decide) 5 (by decide) (by decide)⟩

/-- Claim C6: exactly one key maps to the Legend sentinel 0, that key is
the maximum key of the map, and it is one greater than the largest key
assigned to rank 1. -/
theorem legend_sentinel_unique_max :
    ((build_star_map.filter (fun p => p.2 == 0)).map Prod.fst) = [legend_key] ∧
    (legend_key, 0) ∈ build_star_map ∧
    (build_star_map.all (fun p => decide (p.1 ≤ legend_key))) = true ∧
    ∃ m, ((build_star_map.filter (fun p => p.2 == 1)).map Prod.fst).max? = some m ∧
      legend_key = m + 1 :=
  ⟨by decide, by decide, by decide, 95, by decide, by decide⟩

lemma climbStep_win_low_streak (win_rate : ℚ) (nsa : Int) (fl : List Int) (d : ℚ)
    (st : ClimbState) (hwin : d < win_rate) (hw : st.wins_in_row + 1 < 3) :
    climbStep win_rate nsa fl d st =
      ⟨st.current_stars + 1, st.wins_in_row + 1, st.games + 1⟩ := by
  rw [climbStep_win win_rate nsa fl d st hwin, if_neg]
  intro hc
  omega

/-- Claim C3: a win first increments the streak; with resulting streak ≥ 3
and stars (before the gain) strictly below the streak threshold the gain
is exactly 2 stars, otherwise exactly 1.  Consequently, from a zero
streak, three straight wins gain 4 stars when the whole run stays below
the threshold (2 on the third win), but only 3 stars when starting at or
above the threshold. -/
theorem win_increments_streak_and_bonus (win_rate : ℚ) (nsa : Int) (fl : List Int)
    (d d1 d2 d3 : ℚ) (st st0 : ClimbState) (hd : d < win_rate) (h1 : d1 < win_rate)
    (h2 : d2 < win_rate) (h3 : d3 < win_rate) (hst0 : st0.wins_in_row = 0) :
    (climbStep win_rate nsa fl d st).wins_in_row = st.wins_in_row + 1 ∧
    (3 ≤ st.wins_in_row + 1 ∧ st.current_stars < nsa →
      (climbStep win_rate nsa fl d st).current_stars = st.current_stars + 2) ∧
    (¬ (3 ≤ st.wins_in_row + 1 ∧ st.current_stars < nsa) →
      (climbStep win_rate nsa fl d st).current_stars = st.current_stars + 1) ∧
    (st0.current_stars + 2 < nsa →
      (climbStep win_rate nsa fl d3 (climbStep win_rate nsa fl d2
        (climbStep win_rate nsa fl d1 st0))).current_stars = st0.current_stars + 4) ∧
    (nsa ≤ st0.current_stars →
      (climbStep win_rate nsa fl d3 (climbStep win_rate nsa fl d2
        (climbStep win_rate nsa fl d1 st0))).current_stars = st0.current_stars + 3) := by
  have e1 : climbStep win_rate nsa fl d1 st0 =
      ⟨st0.current_stars + 1, 1, st0.games + 1⟩ := by
    rw [climbStep_win_low_streak win_rate nsa fl d1 st0 h1 (by omega), hst0]
  have e2 : climbStep win_rate nsa fl d2 (climbStep win_rate nsa fl d1 st0) =
      ⟨st0.current_stars + 2, 2, st0.games + 2⟩ := by
    rw [e1, climbStep_win_low_streak win_rate nsa fl d2 _ h2 (by dsimp only; omega)]
    congr 1
    dsimp only
    omega
  refine ⟨?_, ?_, ?_, ?_, ?_⟩
  · rw [climbStep_win win_rate nsa fl d st hd]
    split <;> rfl
  · intro hc
    rw [climbStep_win win_rate nsa fl d st hd, if_pos hc]
  · intro hc
    rw [climbStep_win win_rate nsa fl d st hd, if_neg hc]
  · intro hlow
    rw [e2, climbStep_win win_rate nsa fl d3 _ h3]
    dsimp only
    rw [if_pos (show (3 : Nat) ≤ 2 + 1 ∧ st0.current_stars + 2 < nsa from
      ⟨by norm_num, hlow⟩)]
    dsimp only
    omega
  · intro hhigh
    rw [e2, climbStep_win win_rate nsa fl d3 _ h3]
    dsimp only
    rw [if_neg (show ¬ ((3 : Nat) ≤ 2 + 1 ∧ st0.current_stars + 2 < nsa) from by omega)]
    dsimp only
    omega

/-- Witness for C3: win rate 1, threshold 71, draws 0; the single-step part
at streak 2, stars 0 (third win: +2), and the three-win part from streak 0
at stars 0 (below threshold, +4 total). -/
theorem win_streak_bonus_witness :
    (0 : ℚ) < 1 ∧ (ClimbState.mk 0 0 0).wins_in_row = 0 ∧
    (climbStep 1 71 [0, 11, 26, 46, 71] 0 ⟨0, 2, 2⟩).wins_in_row = 2 + 1 ∧
    (climbStep 1 71 [0, 11, 26, 46, 71] 0 ⟨0, 2, 2⟩).current_stars = 0 + 2 ∧
    (climbStep 1 71 [0, 11, 26, 46, 71] 0 (climbStep 1 71 [0, 11, 26, 46, 71] 0
      (climbStep 1 71 [0, 11, 26, 46, 71] 0 ⟨0, 0, 0⟩))).current_stars = 0 + 4 :=
  ⟨by norm_num, rfl,
    (win_increments_streak_and_bonus 1 71 [0, 11, 26, 46, 71] 0 0 0 0
      ⟨0, 2, 2⟩ ⟨0, 0, 0⟩ (by norm_num) (by norm_num) (by norm_num) (by norm_num) rfl).1,
    (win_increments_streak_and_bonus 1 71 [0, 11, 26, 46, 71] 0 0 0 0
      ⟨0, 2, 2⟩ ⟨0, 0, 0⟩ (by norm_num) (by norm_num) (by norm_num) (by norm_num)
      rfl).2.1 (by constructor <;> decide),
    (win_increments_streak_and_bonus 1 71 [0, 11, 26, 46, 71] 0 0 0 0
      ⟨0, 2, 2⟩ ⟨0, 0, 0⟩ (by norm_num) (by norm_num) (by norm_num) (by norm_num)
      rfl).2.2.2.1 (by decide)⟩

lemma climbLoop_succ (win_rate : ℚ) (nsa : Int) (fl : List Int) (lg : Int)
    (s : Nat → ℚ) (fuel : Nat) (stars : Int) (streak games : Nat) :
    climbLoop win_rate nsa fl lg s (fuel + 1) stars streak games =
      if stars < lg then
        climbLoop win_rate nsa fl lg s fuel
          (climbStep win_rate nsa fl (s games) ⟨stars, streak, games⟩).current_stars
          (climbStep win_rate nsa fl (s games) ⟨stars, streak, games⟩).wins_in_row
          (climbStep win_rate nsa fl (s games) ⟨stars, streak, games⟩).games
      else games := rfl

lemma climbLoop_le (win_rate : ℚ) (nsa : Int) (fl : List Int) (lg : Int)
    (s : Nat → ℚ) :
    ∀ fuel (stars : Int) (streak games : Nat),
      climbLoop win_rate nsa fl lg s fuel stars streak games ≤ games + fuel := by
  intro fuel
  induction fuel with
  | zero =>
    intro stars streak games
    simp [climbLoop]
  | succ n ih =>
    intro stars streak games
    by_cases hlt : stars < lg
    · rw [climbLoop_succ win_rate nsa fl lg s n stars streak games, if_pos hlt,
        climbStep_games win_rate nsa fl (s games) ⟨stars, streak, games⟩]
      dsimp only
      have h1 := ih (climbStep win_rate nsa fl (s games) ⟨stars, streak, games⟩).current_stars
        (climbStep win_rate nsa fl (s games) ⟨stars, streak, games⟩).wins_in_row
        (games + 1)
      omega
    · rw [climbLoop_succ win_rate nsa fl lg s n stars streak games, if_neg hlt]
      omega

lemma climbLoop_all_loss (win_rate : ℚ) (nsa : Int) (fl : List Int) (lg : Int)
    (s : Nat → ℚ) (hs : ∀ i, ¬ s i < win_rate) (stars : Int) (hmem : stars ∈ fl)
    (hlt : stars < lg) :
    ∀ fuel (streak games : Nat),
      climbLoop win_rate nsa fl lg s fuel stars streak games = games + fuel := by
  intro fuel
  induction fuel with
  | zero =>
    intro streak games
    simp [climbLoop]
  | succ n ih =>
    intro streak games
    simp only [climbLoop, if_pos hlt]
    rw [climbStep_loss win_rate nsa fl (s games) ⟨stars, streak, games⟩ (hs games)]
    rw [if_pos hmem]
    rw [ih 0 (games + 1)]
    omega

/-- Claim C4: with win rate 0 and the default parameters every game is a
loss (a draw in `[0, 1)` is never below 0), stars stay pinned at the floor
0, and the loop runs to the 5000-game cap, whatever the random stream. -/
theorem win_rate_zero_returns_5000 (s : Nat → ℚ) (h : ∀ i, 0 ≤ s i) :
    climb_to_legend 0 s 0 5 DEFAULT_RANK_FLOORS = some 5000 := by
  have hred : climb_to_legend 0 s 0 5 DEFAULT_RANK_FLOORS =
      some (climbLoop 0 71 [0, 11, 26, 46, 71] 96 s 5000 0 0 0) := rfl
  rw [hred, climbLoop_all_loss 0 71 [0, 11, 26, 46, 71] 96 s
    (fun i => not_lt.mpr (h i)) 0 (by decide) (by decide) 5000 0 0]

/-- Witness for C4 at the constant-zero stream. -/
theorem win_rate_zero_witness :
    (∀ i : Nat, (0 : ℚ) ≤ (fun _ : Nat => (0 : ℚ)) i) ∧
    climb_to_legend 0 (fun _ => 0) 0 5 DEFAULT_RANK_FLOORS = some 5000 :=
  ⟨fun _ => le_refl 0, win_rate_zero_returns_5000 (fun _ => 0) (fun _ => le_refl 0)⟩

lemma min_key_for_isSome (r k : Nat) (hk : (k, r) ∈ build_star_map) :
    ∃ m, min_key_for r = some m := by
  have hf : (k, r) ∈ build_star_map.filter (fun p => p.2 == r) :=
    List.mem_filter.mpr ⟨hk, by simp⟩
  have hm : k ∈ (build_star_map.filter (fun p => p.2 == r)).map Prod.fst :=
    List.mem_map_of_mem Prod.fst hf
  unfold min_key_for
  cases hl : (build_star_map.filter (fun p => p.2 == r)).map Prod.fst with
  | nil => rw [hl] at hm; exact absurd hm (List.not_mem_nil k)
  | cons a as => exact ⟨as.foldl Nat.min a, rfl⟩

lemma resolve_floors_isSome (rf : List Nat)
    (h : ∀ r ∈ rf, ∃ k, (k, r) ∈ build_star_map) :
    ∃ fl, resolve_floors rf = some fl := by
  induction rf with
  | nil => exact ⟨[], rfl⟩
  | cons r rs ih =>
    obtain ⟨k, hk⟩ := h r (List.mem_cons_self r rs)
    obtain ⟨m, hm⟩ := min_key_for_isSome r k hk
    obtain ⟨fl, hfl⟩ := ih (fun r' hr' => h r' (List.mem_cons_of_mem r hr'))
    exact ⟨m :: fl, by simp [resolve_floors, hm, hfl]⟩

/-- Claim C5: whenever every floor rank and the streak-threshold rank occur
in the ladder map, `climb_to_legend` terminates with a game count, and
that count is at most 5000 (the games counter grows by one per iteration
and the loop stops at the Legend key or the 5000-game cap). -/
theorem climb_terminates_within_cap (win_rate : ℚ) (s : Nat → ℚ) (start_stars : Int)
    (no_streaks_above_rank : Nat) (rank_floors : List Nat)
    (hrf : ∀ r ∈ rank_floors, ∃ k, (k, r) ∈ build_star_map)
    (hnsr : ∃ k, (k, no_streaks_above_rank) ∈ build_star_map) :
    ∃ g, climb_to_legend win_rate s start_stars no_streaks_above_rank rank_floors =
      some g ∧ g ≤ 5000 := by
  obtain ⟨fl, hfl⟩ := resolve_floors_isSome rank_floors hrf
  obtain ⟨k, hk⟩ := hnsr
  obtain ⟨m, hm⟩ := min_key_for_isSome no_streaks_above_rank k hk
  refine ⟨climbLoop win_rate (m : Int) (fl.map (fun k : Nat => (k : Int))) (legend_key : Int)
    s 5000 start_stars 0 0, ?_, ?_⟩
  · unfold climb_to_legend
    rw [hfl, hm]
  · have := climbLoop_le win_rate (m : Int) (fl.map (fun k : Nat => (k : Int)))
      (legend_key : Int) s 5000 start_stars 0 0
    omega

/-- Witness for C5 with the default parameters and win rate 0. -/
theorem climb_terminates_witness :
    (∀ r ∈ DEFAULT_RANK_FLOORS, ∃ k, (k, r) ∈ build_star_map) ∧
    (∃ k, (k, 5) ∈ build_star_map) ∧
    ∃ g, climb_to_legend 0 (fun _ => 0) 0 5 DEFAULT_RANK_FLOORS = some g ∧
      g ≤ 5000 := by
  have h1 : ∀ r ∈ DEFAULT_RANK_FLOORS, ∃ k, (k, r) ∈ build_star_map := by
    intro r hr
    simp only [DEFAULT_RANK_FLOORS, List.mem_cons, List.not_mem_nil, or_false] at hr
    rcases hr with rfl | rfl | rfl | rfl | rfl
    · exact ⟨0, by decide⟩
    · exact ⟨11, by decide⟩
    · exact ⟨26, by decide⟩
    · exact ⟨46, by decide⟩
    · exact ⟨71, by decide⟩
  exact ⟨h1, ⟨71, by decide⟩,
    climb_terminates_within_cap 0 (fun _ => 0) 0 5 DEFAULT_RANK_FLOORS h1
      ⟨71, by decide⟩⟩

/-- Claim C9: when the starting star count already sits at or above the
Legend key, the loop guard fails at once and `climb_to_legend` returns 0
games, for every win rate, stream and valid configuration. -/
theorem start_at_legend_returns_zero (win_rate : ℚ) (s : Nat → ℚ) (start_stars : Int)
    (no_streaks_above_rank : Nat) (rank_floors : List Nat) (fl : List Nat) (nsa : Nat)
    (hfl : resolve_floors rank_floors = some fl)
    (hnsa : min_key_for no_streaks_above_rank = some nsa)
    (hstart : (legend_key : Int) ≤ start_stars) :
    climb_to_legend win_rate s start_stars no_streaks_above_rank rank_floors =
      some 0 := by
  unfold climb_to_legend
  rw [hfl, hnsa]
  dsimp only
  rw [show (5000 : Nat) = 4999 + 1 from rfl]
  rw [climbLoop_succ win_rate (nsa : Int) (fl.map (fun k : Nat => (k : Int)))
    (legend_key : Int) s 4999 start_stars 0 0]
  rw [if_neg (not_lt.mpr hstart)]

/-- Witness for C9: starting at 96 stars (the Legend key) returns 0. -/
theorem start_at_legend_witness :
    resolve_floors DEFAULT_RANK_FLOORS = some [0, 11, 26, 46, 71] ∧
    min_key_for 5 = some 71 ∧ (legend_key : Int) ≤ 96 ∧
    climb_to_legend 0 (fun _ => 0) 96 5 DEFAULT_RANK_FLOORS = some 0 :=
  ⟨by decide, by decide, by decide,
    start_at_legend_returns_zero 0 (fun _ => 0) 96 5 DEFAULT_RANK_FLOORS
      [0, 11, 26, 46, 71] 71 (by decide) (by decide) (by decide)⟩

lemma climbLoop_congr_stream (win_rate : ℚ) (nsa : Int) (fl : List Int) (lg : Int)
    (s t : Nat → ℚ) (hs : ∀ i, s i < win_rate) (ht : ∀ i, t i < win_rate) :
    ∀ fuel (stars : Int) (streak games : Nat),
      climbLoop win_rate nsa fl lg s fuel stars streak games =
        climbLoop win_rate nsa fl lg t fuel stars streak games := by
  intro fuel
  induction fuel with
  | zero => intro stars streak games; rfl
  | succ n ih =>
    intro stars streak games
    by_cases hlt : stars < lg
    · rw [climbLoop_succ win_rate nsa fl lg s n stars streak games, if_pos hlt,
        climbLoop_succ win_rate nsa fl lg t n stars streak games, if_pos hlt,
        climbStep_win win_rate nsa fl (s games) ⟨stars, streak, games⟩ (hs games),
        climbStep_win win_rate nsa fl (t games) ⟨stars, streak, games⟩ (ht games)]
      exact ih _ _ _
    · rw [climbLoop_succ win_rate nsa fl lg s n stars streak games, if_neg hlt,
        climbLoop_succ win_rate nsa fl lg t n stars streak games, if_neg hlt]

/-- Claim C7: with win rate 1 and draws in `[0, 1)` every game is a win, so
the climb from 0 stars is deterministic: 61 games for every random
stream, which is below the 5000-game cap and strictly below the total
number of star-keys in the ladder map. -/
theorem win_rate_one_deterministic_61 (s : Nat → ℚ)
    (h : ∀ i, 0 ≤ s i ∧ s i < 1) :
    climb_to_legend 1 s 0 5 DEFAULT_RANK_FLOORS = some 61 ∧
    61 < 5000 ∧ 61 < build_star_map.length := by
  refine ⟨?_, by norm_num, by decide⟩
  have hred : climb_to_legend 1 s 0 5 DEFAULT_RANK_FLOORS =
      some (climbLoop 1 71 [0, 11, 26, 46, 71] 96 s 5000 0 0 0) := rfl
  rw [hred, climbLoop_congr_stream 1 71 [0, 11, 26, 46, 71] 96 s (fun _ => 0)
    (fun i => (h i).2) (fun _ => by norm_num) 5000 0 0 0]
  decide

/-- Witness for C7 at the constant-zero stream. -/
theorem win_rate_one_witness :
    (∀ i : Nat, (0 : ℚ) ≤ (fun _ : Nat => (0 : ℚ)) i ∧ (fun _ : Nat => (0 : ℚ)) i < 1) ∧
    (climb_to_legend 1 (fun _ => 0) 0 5 DEFAULT_RANK_FLOORS = some 61 ∧
      61 < 5000 ∧ 61 < build_star_map.length) :=
  ⟨fun _ => ⟨le_refl 0, by norm_num⟩,
    win_rate_one_deterministic_61 (fun _ => 0) (fun _ => ⟨le_refl 0, by norm_num⟩)⟩

lemma climbStep_nonneg (win_rate : ℚ) (nsa : Int) (fl : List Int) (d : ℚ)
    (st : ClimbState) (h0 : (0 : Int) ∈ fl) (h : 0 ≤ st.current_stars) :
    0 ≤ (climbStep win_rate nsa fl d st).current_stars := by
  by_cases hw : d < win_rate
  · rw [climbStep_win win_rate nsa fl d st hw]
    split
    · dsimp only; omega
    · dsimp only; omega
  · rw [climbStep_loss win_rate nsa fl d st hw]
    by_cases hm : st.current_stars ∈ fl
    · rw [if_pos hm]
      exact h
    · rw [if_neg hm]
      dsimp only
      have hne : st.current_stars ≠ 0 := fun hz => hm (hz ▸ h0)
      omega

/-- Claim C10: with the default floors (whose resolution contains the
star-count 0 for rank 25), every state reachable by game steps from the
initial state with 0 stars keeps a non-negative star count, for every win
rate, streak threshold and random draw sequence. -/
theorem stars_nonneg_with_default_floors (win_rate : ℚ) (nsa : Int) (fl : List Nat)
    (hfl : resolve_floors DEFAULT_RANK_FLOORS = some fl) (st : ClimbState)
    (hreach : Relation.ReflTransGen
      (stepRel win_rate nsa (fl.map (fun k : Nat => (k : Int)))) ⟨0, 0, 0⟩ st) :
    0 ≤ st.current_stars := by
  have hfl5 : fl = [0, 11, 26, 46, 71] := by
    have h5 : resolve_floors DEFAULT_RANK_FLOORS = some [0, 11, 26, 46, 71] := by decide
    rw [h5] at hfl
    exact (Option.some.inj hfl).symm
  subst hfl5
  have h0 : (0 : Int) ∈ ([0, 11, 26, 46, 71] : List Nat).map (fun k : Nat => (k : Int)) := by
    decide
  induction hreach with
  | refl => exact le_refl 0
  | tail _ hstep ih =>
    obtain ⟨d, rfl⟩ := hstep
    exact climbStep_nonneg win_rate nsa _ d _ h0 ih

/-- Witness for C10 after one losing step from the initial state. -/
theorem stars_nonneg_witness :
    resolve_floors DEFAULT_RANK_FLOORS = some [0, 11, 26, 46, 71] ∧
    0 ≤ (climbStep 0 71 (([0, 11, 26, 46, 71] : List Nat).map (fun k : Nat => (k : Int))) 0
      ⟨0, 0, 0⟩).current_stars :=
  ⟨by decide,
    stars_nonneg_with_default_floors 0 71 [0, 11, 26, 46, 71] (by decide) _
      (Relation.ReflTransGen.single ⟨0, rfl⟩)⟩

lemma runClimbs_length (win_rate : ℚ) (start_stars : Int) (nsr : Nat)
    (rf : List Nat) :
    ∀ n (s : Nat → ℚ) (gs : List Nat),
      runClimbs win_rate start_stars nsr rf n s = some gs → gs.length = n := by
  intro n
  induction n with
  | zero =>
    intro s gs h
    simp only [runClimbs, Option.some.injEq] at h
    subst h
    rfl
  | succ n ih =>
    intro s gs h
    rw [runClimbs] at h
    cases hc : climb_to_legend win_rate s start_stars nsr rf with
    | none => rw [hc] at h; exact absurd h (by simp)
    | some g =>
      rw [hc] at h
      dsimp only at h
      cases hr : runClimbs win_rate start_stars nsr rf n (fun i => s (i + g)) with
      | none => rw [hr] at h; exact absurd h (by simp)
      | some gs' =>
        rw [hr] at h
        dsimp only at h
        simp only [Option.some.injEq] at h
        subst h
        simp [ih _ _ hr]

/-- Claim C8: for n ≥ 1 runs, `simulate` returns the exact arithmetic mean
(sum divided by n, as a rational) of the n climb results, the runs being
independent apart from consuming successive segments of the shared random
stream. -/
theorem simulate_is_arithmetic_mean (n : Nat) (win_rate : ℚ) (s : Nat → ℚ)
    (start_stars : Int) (nsr : Nat) (rf : List Nat) (gs : List Nat) (_hn : 1 ≤ n)
    (h : runClimbs win_rate start_stars nsr rf n s = some gs) :
    gs.length = n ∧
    simulate n win_rate s start_stars nsr rf =
      some ((gs.map (fun g : Nat => (g : ℚ))).sum / (n : ℚ)) := by
  have hl := runClimbs_length win_rate start_stars nsr rf n s gs h
  refine ⟨hl, ?_⟩
  have hlen : (((gs.map (fun g : Nat => (g : ℚ))).length : Nat) : ℚ) = (n : ℚ) := by
    rw [List.length_map, hl]
  unfold simulate
  rw [h, Option.map_some']
  unfold statistics_mean
  rw [hlen]

/-- Witness for C8: a single run at win rate 1 plays 61 games and the mean
is 61/1. -/
theorem simulate_mean_witness :
    1 ≤ 1 ∧
    runClimbs 1 0 5 DEFAULT_RANK_FLOORS 1 (fun _ => 0) = some [61] ∧
    ([61] : List Nat).length = 1 ∧
    simulate 1 1 (fun _ => 0) 0 5 DEFAULT_RANK_FLOORS =
      some ((([61] : List Nat).map (fun g : Nat => (g : ℚ))).sum / ((1 : Nat) : ℚ)) :=
  ⟨le_refl 1, by decide,
    (simulate_is_arithmetic_mean 1 1 (fun _ => 0) 0 5 DEFAULT_RANK_FLOORS [61]
      (le_refl 1) (by decide)).1,
    (simulate_is_arithmetic_mean 1 1 (fun _ => 0) 0 5 DEFAULT_RANK_FLOORS [61]
      (le_refl 1) (by decide)).2⟩

end HearthstoneStars
